import Mathlib

/-!
Shallow embedding of the EpistemicGuardian program (src/index.py).

The program presents quiz items, measures typing behaviour (latency to
first keystroke, typing velocity, revision count), derives a Behavioral
Confidence Index (BCI) from z-scores against a personal history, and in
the experimental arm triggers a re-answer nudge when BCI exceeds the
objective difficulty by more than a threshold.  Machine floats are
modelled as real numbers; the interactive capture is modelled by an
AnswerEvent carrying the products of one answer attempt (plus the
re-answer products, which the code reads and mostly discards).
-/

open scoped Classical

noncomputable section

namespace ScienceFair

/-- One recorded outcome: `entry = {bci, outcome, is_trap}` (line 96). -/
structure Entry where
  bci : ℝ
  outcome : ℕ
  is_trap : Bool

/-- The fields of a question that the core logic reads: `q['correct']`
and `q['p_obj']`. -/
structure Question where
  correct : String
  p_obj : ℝ

/-- The products of one answer attempt as returned by `tracked_input`
(answer text, latency to first key, velocity, revisions), together with
the products of the re-answer capture inside the nudge branch
(`final_ans, _, _, _ = self.tracked_input()`, line 92).  The re-answer
behavioural signals are carried here so that we can state that the code
discards them. -/
structure AnswerEvent where
  ans : String
  lat : ℝ
  vel : ℝ
  rev : ℝ
  reAns : String
  reLat : ℝ
  reVel : ℝ
  reRev : ℝ

/-- Mutable state of an `EpistemicGuardian` instance (`__init__`,
lines 23-30): the three personal-baseline histories, the two result
lists, and the two counters.  The constant weights and threshold are
top-level definitions below. -/
structure GuardianState where
  latency : List ℝ
  velocity : List ℝ
  revisions : List ℝ
  results_control : List Entry
  results_exp : List Entry
  nudges_triggered : ℕ
  corrections : ℕ

/-- `self.weights['w1'] = 0.6` (line 24). -/
def w1 : ℝ := 0.6

/-- `self.weights['w2'] = 0.2` (line 24). -/
def w2 : ℝ := 0.2

/-- `self.weights['w3'] = 0.2` (line 24). -/
def w3 : ℝ := 0.2

/-- `self.nudge_threshold = 0.35` (line 25). -/
def nudge_threshold : ℝ := 0.35

/-- The freshly constructed guardian: empty histories, empty result
lists, zero counters. -/
def initState : GuardianState :=
  { latency := [], velocity := [], revisions := [],
    results_control := [], results_exp := [],
    nudges_triggered := 0, corrections := 0 }

/-- `mean = sum(history) / len(history)` (line 34). -/
def histMean (history : List ℝ) : ℝ :=
  history.sum / history.length

/-- `std = math.sqrt(var)` with
`var = sum((x - mean) ** 2 for x in history) / len(history)`
(lines 35-36): population standard deviation of the history. -/
def histStd (history : List ℝ) : ℝ :=
  Real.sqrt ((history.map (fun x => (x - histMean history) ^ 2)).sum / history.length)

/-- `calculate_z_score` (lines 32-37): returns 0 on a history shorter
than 2; otherwise `(value - mean) / (std if std > 0.001 else 1)`. -/
def calculate_z_score (value : ℝ) (history : List ℝ) : ℝ :=
  if history.length < 2 then 0
  else (value - histMean history) /
    (if histStd history > 0.001 then histStd history else 1)

/-- The BCI computation of `run_phase` (lines 75-81): z-score of the
reciprocal latency against the reciprocal-latency history, z-scores of
velocity and revisions against their histories, weighted combination,
logistic squash. -/
def computeBCI (s : GuardianState) (lat vel rev : ℝ) : ℝ :=
  let inv_lat_hist := if s.latency.isEmpty then [] else s.latency.map (fun l => 1 / l)
  let z_lat := calculate_z_score (if lat > 0 then 1 / lat else 0) inv_lat_hist
  let z_vel := calculate_z_score vel s.velocity
  let z_rev := calculate_z_score rev s.revisions
  let raw_bci := w1 * z_lat + w2 * z_vel - w3 * z_rev
  1 / (1 + Real.exp (-raw_bci))

/-- One iteration of the loop body of `run_phase` (lines 69-102) on one
question and one answer event: compute the BCI and `delta_c`, run the
nudge branch when the mode is experimental and `delta_c` exceeds the
threshold (incrementing the nudge counter, switching the outcome to the
re-answer, and incrementing the correction counter when the re-answer
is correct and the original was not), record the entry in the result
list selected by the mode, and append the original behavioural signals
to the personal baseline. -/
def step (s : GuardianState) (mode : String) (q : Question) (e : AnswerEvent) :
    GuardianState :=
  let bci := computeBCI s e.lat e.vel e.rev
  let delta_c := bci - q.p_obj
  let is_correct : ℕ := if e.ans = q.correct then 1 else 0
  let nudges2 : ℕ :=
    if mode = "experimental" ∧ delta_c > nudge_threshold
    then s.nudges_triggered + 1 else s.nudges_triggered
  let corrections2 : ℕ :=
    if mode = "experimental" ∧ delta_c > nudge_threshold
    then (if e.reAns = q.correct ∧ is_correct = 0
          then s.corrections + 1 else s.corrections)
    else s.corrections
  let final_correct : ℕ :=
    if mode = "experimental" ∧ delta_c > nudge_threshold
    then (if e.reAns = q.correct then 1 else 0)
    else is_correct
  let entry : Entry :=
    { bci := bci, outcome := final_correct,
      is_trap := if q.p_obj < 0.4 then true else false }
  { latency := s.latency ++ [e.lat]
    velocity := s.velocity ++ [e.vel]
    revisions := s.revisions ++ [e.rev]
    results_control :=
      if mode = "control" then s.results_control ++ [entry] else s.results_control
    results_exp :=
      if mode = "control" then s.results_exp
      else if mode = "experimental" then s.results_exp ++ [entry] else s.results_exp
    nudges_triggered := nudges2
    corrections := corrections2 }

/-- A whole session, or any portion of one: fold `step` over a sequence
of (mode, question, answer event) items.  The actual program runs the
calibration, control and experimental phases in order (lines 149-153),
which is one such sequence. -/
def runItems (s : GuardianState)
    (items : List (String × Question × AnswerEvent)) : GuardianState :=
  items.foldl (fun acc it => step acc it.1 it.2.1 it.2.2) s

/-- `get_acc` of `print_final_report` (lines 106-108): mean outcome over
the trap entries, 0 when there are none. -/
def get_acc (res_list : List Entry) : ℝ :=
  let traps := (res_list.filter (fun r => r.is_trap)).map (fun r => (r.outcome : ℝ))
  if traps.isEmpty then 0 else traps.sum / traps.length

/-- `brier` of `print_final_report` (lines 109-110): mean of
`(bci - outcome) ** 2`, 0 on an empty list. -/
def brier (res_list : List Entry) : ℝ :=
  if res_list.isEmpty then 0
  else ((res_list.map (fun r => (r.bci - (r.outcome : ℝ)) ^ 2)).sum) / res_list.length

/-- `eta = self.corrections / self.nudges_triggered if self.nudges_triggered > 0 else 0`
(line 114). -/
def nudge_efficiency (s : GuardianState) : ℝ :=
  if s.nudges_triggered > 0 then (s.corrections : ℝ) / s.nudges_triggered else 0

/-- Mean of a list of reals (used to phrase the report formulas the way
the specification states them). -/
def mean (l : List ℝ) : ℝ := l.sum / l.length

/-- Strategy A of the specification, written from its pseudocode: z-score
of the reciprocal latency (0 substituted when the latency is 0) against
the history of reciprocal latencies, z-scores of velocity and revision
count against their histories, raw score `w1*z_speed + w2*z_velocity -
w3*z_revision`, and `BCI = 1 / (1 + exp(-raw))`. -/
def strategyA (inv_lat_hist vel_hist rev_hist : List ℝ) (lat vel rev : ℝ) : ℝ :=
  let z_speed := calculate_z_score (if lat = 0 then 0 else 1 / lat) inv_lat_hist
  let z_velocity := calculate_z_score vel vel_hist
  let z_revision := calculate_z_score rev rev_hist
  let raw := w1 * z_speed + w2 * z_velocity - w3 * z_revision
  1 / (1 + Real.exp (-raw))

/-- A concrete hard question (objective difficulty 0), used to exercise
the nudge branch in concrete runs. -/
def demoQ : Question := { correct := "B", p_obj := 0 }

/-- A concrete easy question (objective difficulty 1/2), on which the
fresh-state BCI of 1/2 gives `delta_c = 0` and no nudge. -/
def demoQEasy : Question := { correct := "B", p_obj := 1/2 }

/-- A concrete answer event: wrong original answer, correct re-answer,
with distinctive re-answer signals. -/
def demoE : AnswerEvent :=
  { ans := "A", lat := 2, vel := 1, rev := 0,
    reAns := "B", reLat := 5, reVel := 9, reRev := 7 }

/-- A one-item experimental phase on the hard question: from the fresh
state this run triggers the nudge. -/
def demoItems : List (String × Question × AnswerEvent) :=
  [("experimental", demoQ, demoE)]

/-- A concrete recorded entry marked as a trap. -/
def demoTrapEntry : Entry := { bci := 1, outcome := 1, is_trap := true }

/-- A concrete recorded entry not marked as a trap. -/
def demoPlainEntry : Entry := { bci := 1, outcome := 1, is_trap := false }

/-- The logistic value is always strictly between 0 and 1; stated with
the closed bounds the specification uses. -/
lemma logistic_mem (x : ℝ) :
    0 ≤ 1 / (1 + Real.exp (-x)) ∧ 1 / (1 + Real.exp (-x)) ≤ 1 := by
  have hpos : (0 : ℝ) < 1 + Real.exp (-x) := by positivity
  constructor
  · positivity
  · rw [div_le_one hpos]
    have := (Real.exp_pos (-x)).le
    linarith

/-- Claim C5: for every Behavioral Sample, including zero or extreme
latency, velocity and revision values, the BCI computed by the program
lies in the interval [0, 1]. -/
theorem bci_mem_unit_interval (s : GuardianState) (lat vel rev : ℝ) :
    0 ≤ computeBCI s lat vel rev ∧ computeBCI s lat vel rev ≤ 1 :=
  logistic_mem _

/-- Claim C1: for every answer attempt (with its nonnegative latency),
the BCI computed by the program equals Strategy A of the specification:
the weighted combination `w1*z_speed + w2*z_velocity - w3*z_revision`
of the z-score of the reciprocal latency (0 when the latency is 0)
against the history of reciprocal latencies and the z-scores of
velocity and revision count, squashed by the logistic. -/
theorem computeBCI_eq_strategyA (s : GuardianState) (lat vel rev : ℝ)
    (hlat : 0 ≤ lat) :
    computeBCI s lat vel rev =
      strategyA (s.latency.map (fun l => 1 / l)) s.velocity s.revisions
        lat vel rev := by
  have h1 : (if s.latency.isEmpty then ([] : List ℝ)
        else s.latency.map (fun l => 1 / l))
      = s.latency.map (fun l => 1 / l) := by
    cases s.latency <;> simp
  have h2 : (if lat > 0 then 1 / lat else 0) = (if lat = 0 then 0 else 1 / lat) := by
    rcases eq_or_lt_of_le hlat with h | h
    · simp [← h]
    · rw [if_pos h, if_neg (ne_of_gt h)]
  simp only [computeBCI, strategyA, h1, h2]

/-- The hypothesis of `computeBCI_eq_strategyA` discharged at a concrete
sample (latency 2, velocity 1, no revisions, fresh state). -/
theorem computeBCI_eq_strategyA_witness :
    computeBCI initState 2 1 0 =
      strategyA (initState.latency.map (fun l => 1 / l)) initState.velocity
        initState.revisions 2 1 0 :=
  computeBCI_eq_strategyA initState 2 1 0 (by norm_num)

/-- Claim C4: the nudge counter is incremented exactly when the arm is
experimental and `delta_c = bci - p_obj` strictly exceeds the nudge
threshold; in particular a control-arm item never triggers: its
counters are untouched, nothing lands in the experimental results, and
its recorded outcome is the original correctness. -/
theorem nudge_trigger_characterization (s : GuardianState) (mode : String)
    (q : Question) (e : AnswerEvent) :
    (step s mode q e).nudges_triggered =
      (if mode = "experimental" ∧
          computeBCI s e.lat e.vel e.rev - q.p_obj > nudge_threshold
       then s.nudges_triggered + 1 else s.nudges_triggered)
    ∧ (step s "control" q e).nudges_triggered = s.nudges_triggered
    ∧ (step s "control" q e).corrections = s.corrections
    ∧ (step s "control" q e).results_exp = s.results_exp
    ∧ (step s "control" q e).results_control.map Entry.outcome =
        s.results_control.map Entry.outcome ++
          [if e.ans = q.correct then 1 else 0] := by
  refine ⟨rfl, by simp [step], by simp [step], by simp [step], by simp [step]⟩

/-- Counterexample to claim C8: answering an experimental-arm item does
change the Personal Baseline.  From the fresh state, one experimental
item with latency 2 grows the latency history from `[]` to `[2]`. -/
theorem baseline_grows_in_experimental_arm :
    (step initState "experimental" demoQ demoE).latency ≠ initState.latency
    ∧ (step initState "experimental" demoQ demoE).latency = [2]
    ∧ initState.latency = [] := by
  refine ⟨?_, ?_, rfl⟩ <;> simp [step, initState, demoE]

/-- Claim C8 as amended: the three Personal Baseline sequences are
appended to from every answered item, whatever the arm (calibration,
control or experimental alike). -/
theorem baseline_appends_every_item (s : GuardianState) (mode : String)
    (q : Question) (e : AnswerEvent) :
    (step s mode q e).latency = s.latency ++ [e.lat]
    ∧ (step s mode q e).velocity = s.velocity ++ [e.vel]
    ∧ (step s mode q e).revisions = s.revisions ++ [e.rev] :=
  ⟨rfl, rfl, rfl⟩

/-- Claim C9: the re-answer behavioural signals are discarded: changing
them changes nothing in the resulting state; the bci stored in an
experimental-arm entry is the one computed from the original signals;
and the baseline receives the original latency, velocity and revision
count. -/
theorem reanswer_signals_discarded (s : GuardianState) (mode : String)
    (q : Question) (e : AnswerEvent) (rl rv rr : ℝ) :
    step s mode q { e with reLat := rl, reVel := rv, reRev := rr } = step s mode q e
    ∧ (step s "experimental" q e).results_exp.map Entry.bci =
        s.results_exp.map Entry.bci ++ [computeBCI s e.lat e.vel e.rev]
    ∧ (step s "experimental" q e).latency = s.latency ++ [e.lat]
    ∧ (step s "experimental" q e).velocity = s.velocity ++ [e.vel]
    ∧ (step s "experimental" q e).revisions = s.revisions ++ [e.rev] := by
  refine ⟨rfl, ?_, rfl, rfl, rfl⟩
  simp [step]

/-- Claim C10: a calibration-phase item is recorded in neither result
list and leaves both counters alone (so every final-report metric is
unchanged by it), while still growing the Personal Baseline. -/
theorem calibration_items_not_recorded (s : GuardianState)
    (q : Question) (e : AnswerEvent) :
    (step s "calibration" q e).results_control = s.results_control
    ∧ (step s "calibration" q e).results_exp = s.results_exp
    ∧ (step s "calibration" q e).nudges_triggered = s.nudges_triggered
    ∧ (step s "calibration" q e).corrections = s.corrections
    ∧ (step s "calibration" q e).latency = s.latency ++ [e.lat]
    ∧ (step s "calibration" q e).velocity = s.velocity ++ [e.vel]
    ∧ (step s "calibration" q e).revisions = s.revisions ++ [e.rev]
    ∧ brier (step s "calibration" q e).results_control = brier s.results_control
    ∧ brier (step s "calibration" q e).results_exp = brier s.results_exp
    ∧ get_acc (step s "calibration" q e).results_control = get_acc s.results_control
    ∧ get_acc (step s "calibration" q e).results_exp = get_acc s.results_exp
    ∧ nudge_efficiency (step s "calibration" q e) = nudge_efficiency s := by
  have hrc : (step s "calibration" q e).results_control = s.results_control := by
    simp [step]
  have hre : (step s "calibration" q e).results_exp = s.results_exp := by
    simp [step]
  have hn : (step s "calibration" q e).nudges_triggered = s.nudges_triggered := by
    simp [step]
  have hc : (step s "calibration" q e).corrections = s.corrections := by
    simp [step]
  exact ⟨hrc, hre, hn, hc, rfl, rfl, rfl, by rw [hrc], by rw [hre], by rw [hrc],
    by rw [hre], by simp only [nudge_efficiency, hn, hc]⟩

/-- A z-score against a history of fewer than two observations is 0. -/
lemma calculate_z_score_short (value : ℝ) (history : List ℝ)
    (h : history.length < 2) : calculate_z_score value history = 0 := by
  simp [calculate_z_score, h]

/-- On the fresh state every history is empty, every z-score is 0, and
the BCI is exactly 1/2. -/
lemma computeBCI_initState (lat vel rev : ℝ) :
    computeBCI initState lat vel rev = 1 / 2 := by
  norm_num [computeBCI, initState, calculate_z_score, w1, w2, w3, Real.exp_zero]

/-- Claim C3: when `delta_c` is at most the nudge threshold no re-answer
is consulted (changing the re-answer text changes nothing), the
counters are untouched, and the recorded outcome is the correctness of
the original answer; when the nudge triggers, the recorded outcome is
the correctness of the re-answer, and the correction counter increments
exactly when the re-answer is correct and the original was not. -/
theorem outcome_resolution (s : GuardianState) (q : Question) (e : AnswerEvent) :
    (computeBCI s e.lat e.vel e.rev - q.p_obj ≤ nudge_threshold →
      (∀ mode, (step s mode q e).nudges_triggered = s.nudges_triggered
        ∧ (step s mode q e).corrections = s.corrections
        ∧ (∀ x, step s mode q { e with reAns := x } = step s mode q e))
      ∧ (step s "control" q e).results_control.map Entry.outcome =
          s.results_control.map Entry.outcome ++
            [if e.ans = q.correct then 1 else 0]
      ∧ (step s "experimental" q e).results_exp.map Entry.outcome =
          s.results_exp.map Entry.outcome ++
            [if e.ans = q.correct then 1 else 0])
    ∧ (computeBCI s e.lat e.vel e.rev - q.p_obj > nudge_threshold →
      (step s "experimental" q e).results_exp.map Entry.outcome =
        s.results_exp.map Entry.outcome ++
          [if e.reAns = q.correct then 1 else 0]
      ∧ (step s "experimental" q e).corrections =
          (if e.reAns = q.correct ∧ e.ans ≠ q.correct
           then s.corrections + 1 else s.corrections)) := by
  constructor
  · intro h
    have hle : ¬ nudge_threshold < computeBCI s e.lat e.vel e.rev - q.p_obj :=
      not_lt.mpr h
    refine ⟨fun mode => ⟨by simp [step, hle], by simp [step, hle],
      fun x => by simp [step, hle]⟩, by simp [step, hle], by simp [step, hle]⟩
  · intro h
    constructor
    · simp [step, h]
    · by_cases ha : e.ans = q.correct <;> by_cases hr : e.reAns = q.correct <;>
        simp [step, h, ha, hr]

/-- The two hypotheses of `outcome_resolution` discharged concretely:
on the easy question the fresh-state BCI of 1/2 gives `delta_c = 0`
(no nudge, counter untouched); on the hard question it gives
`delta_c = 1/2 > 0.35` and the recorded outcome is the correctness of
the re-answer. -/
theorem outcome_resolution_witness :
    (step initState "experimental" demoQEasy demoE).nudges_triggered =
        initState.nudges_triggered
    ∧ (step initState "experimental" demoQ demoE).results_exp.map Entry.outcome =
        initState.results_exp.map Entry.outcome ++
          [if demoE.reAns = demoQ.correct then 1 else 0] := by
  constructor
  · exact (((outcome_resolution initState demoQEasy demoE).1
      (by rw [computeBCI_initState]; norm_num [demoQEasy, nudge_threshold])).1
        "experimental").1
  · exact ((outcome_resolution initState demoQ demoE).2
      (by rw [computeBCI_initState]; norm_num [demoQ, nudge_threshold])).1

/-- Claim C6: the Brier score is the mean of `(bci - outcome)^2` and 0
on an empty list; trap accuracy is the mean outcome over the trap
subset and 0 when that subset is empty; nudge efficiency is
`corrections / nudges_triggered` when nudges were triggered and 0
otherwise. -/
theorem report_aggregator_formulas :
    (∀ records : List Entry, records ≠ [] →
      brier records = mean (records.map (fun r => (r.bci - (r.outcome : ℝ)) ^ 2)))
    ∧ brier [] = 0
    ∧ (∀ records : List Entry, records.filter (fun r => r.is_trap) ≠ [] →
      get_acc records =
        mean ((records.filter (fun r => r.is_trap)).map (fun r => (r.outcome : ℝ))))
    ∧ (∀ records : List Entry, records.filter (fun r => r.is_trap) = [] →
      get_acc records = 0)
    ∧ (∀ t : GuardianState, 0 < t.nudges_triggered →
      nudge_efficiency t = (t.corrections : ℝ) / t.nudges_triggered)
    ∧ (∀ t : GuardianState, t.nudges_triggered = 0 → nudge_efficiency t = 0) := by
  refine ⟨?_, by simp [brier], ?_, ?_, ?_, ?_⟩
  · intro records hne
    simp [brier, mean, hne]
  · intro records hne
    simp [get_acc, mean, hne]
  · intro records hnil
    simp [get_acc, hnil]
  · intro t ht
    unfold nudge_efficiency
    rw [if_pos ht]
  · intro t ht
    simp [nudge_efficiency, ht]

/-- The hypotheses of `report_aggregator_formulas` discharged at
concrete inputs: a one-element record list whose single entry is a
trap, one whose single entry is not, and states with two and zero
nudges. -/
theorem report_aggregator_formulas_witness :
    brier [demoTrapEntry] =
      mean ([demoTrapEntry].map (fun r => (r.bci - (r.outcome : ℝ)) ^ 2))
    ∧ get_acc [demoTrapEntry] =
        mean (([demoTrapEntry].filter (fun r => r.is_trap)).map
          (fun r => (r.outcome : ℝ)))
    ∧ get_acc [demoPlainEntry] = 0
    ∧ nudge_efficiency { initState with nudges_triggered := 2, corrections := 1 } =
        ((1 : ℕ) : ℝ) / ((2 : ℕ) : ℝ)
    ∧ nudge_efficiency initState = 0 := by
  refine ⟨report_aggregator_formulas.1 _ (by simp),
    report_aggregator_formulas.2.2.1 _ (by simp [demoTrapEntry]),
    report_aggregator_formulas.2.2.2.1 _ (by simp [demoPlainEntry]),
    report_aggregator_formulas.2.2.2.2.1 _ (by norm_num),
    report_aggregator_formulas.2.2.2.2.2 _ rfl⟩

/-- One step never lets the correction counter overtake the nudge
counter. -/
lemma step_counter_le (s : GuardianState) (mode : String) (q : Question)
    (e : AnswerEvent) (h : s.corrections ≤ s.nudges_triggered) :
    (step s mode q e).corrections ≤ (step s mode q e).nudges_triggered := by
  by_cases hc : mode = "experimental" ∧
      computeBCI s e.lat e.vel e.rev - q.p_obj > nudge_threshold
  · by_cases ha : e.ans = q.correct <;> by_cases hr : e.reAns = q.correct <;>
      simp [step, hc, ha, hr] <;> omega
  · simp only [step]
    simp [hc]
    exact h

/-- The correction counter never overtakes the nudge counter along any
run, from any state already satisfying the invariant. -/
lemma runItems_counter_le (items : List (String × Question × AnswerEvent)) :
    ∀ s : GuardianState, s.corrections ≤ s.nudges_triggered →
      (runItems s items).corrections ≤ (runItems s items).nudges_triggered := by
  induction items with
  | nil => intro s h; exact h
  | cons it rest ih =>
      intro s h
      have hstep := step_counter_le s it.1 it.2.1 it.2.2 h
      simpa [runItems] using ih (step s it.1 it.2.1 it.2.2) hstep

/-- Claim C7: after any sequence of answered items from the fresh
state, the correction counter is at most the nudge counter, and when
nudges were triggered the nudge efficiency lies in [0, 1]. -/
theorem corrections_le_nudges (items : List (String × Question × AnswerEvent)) :
    (runItems initState items).corrections ≤
      (runItems initState items).nudges_triggered
    ∧ (0 < (runItems initState items).nudges_triggered →
        0 ≤ nudge_efficiency (runItems initState items)
        ∧ nudge_efficiency (runItems initState items) ≤ 1) := by
  have hinv := runItems_counter_le items initState (le_refl 0)
  refine ⟨hinv, fun hpos => ?_⟩
  have hn : (0 : ℝ) < ((runItems initState items).nudges_triggered : ℝ) := by
    exact_mod_cast hpos
  unfold nudge_efficiency
  rw [if_pos hpos]
  constructor
  · positivity
  · rw [div_le_one hn]
    exact_mod_cast hinv

/-- Running the one-item experimental demo phase triggers exactly one
nudge. -/
lemma demo_nudges :
    (runItems initState demoItems).nudges_triggered = 1 := by
  have h := computeBCI_initState demoE.lat demoE.vel demoE.rev
  simp only [initState] at h
  norm_num [runItems, demoItems, step, initState, h, demoQ, nudge_threshold]

/-- The hypothesis of `corrections_le_nudges` discharged on the
concrete one-item run that triggers a nudge. -/
theorem corrections_le_nudges_witness :
    (runItems initState demoItems).corrections ≤
      (runItems initState demoItems).nudges_triggered
    ∧ (0 ≤ nudge_efficiency (runItems initState demoItems)
       ∧ nudge_efficiency (runItems initState demoItems) ≤ 1) :=
  ⟨(corrections_le_nudges demoItems).1,
   (corrections_le_nudges demoItems).2 (by rw [demo_nudges]; norm_num)⟩

/-- Mean of the two-point history [0, 1]. -/
lemma histMean_01 : histMean [0, (1 : ℝ)] = 1 / 2 := by
  norm_num [histMean]

/-- Standard deviation of the two-point history [0, 1]. -/
lemma histStd_01 : histStd [0, (1 : ℝ)] = 1 / 2 := by
  have h : histStd [0, (1 : ℝ)] = Real.sqrt ((1 / 2) ^ 2) := by
    unfold histStd
    simp only [histMean_01]
    norm_num
  rw [h, Real.sqrt_sq (by norm_num : (0 : ℝ) ≤ 1 / 2)]

/-- On [0, 1] the standard deviation 1/2 clears the 0.001 guard, so the
z-score of 1 is (1 - 1/2) / (1/2) = 1. -/
lemma z_score_01 : calculate_z_score 1 [0, (1 : ℝ)] = 1 := by
  unfold calculate_z_score
  rw [if_neg (by norm_num), histStd_01, histMean_01,
    if_pos (by norm_num : (1 : ℝ) / 2 > 0.001)]
  norm_num

/-- Mean of the near-constant history [0, 1/5000]. -/
lemma histMean_tiny : histMean [0, (1 : ℝ) / 5000] = 1 / 10000 := by
  norm_num [histMean]

/-- Standard deviation of the near-constant history [0, 1/5000]. -/
lemma histStd_tiny : histStd [0, (1 : ℝ) / 5000] = 1 / 10000 := by
  have h : histStd [0, (1 : ℝ) / 5000] = Real.sqrt ((1 / 10000) ^ 2) := by
    unfold histStd
    simp only [histMean_tiny]
    norm_num
  rw [h, Real.sqrt_sq (by norm_num : (0 : ℝ) ≤ 1 / 10000)]

/-- On [0, 1/5000] the standard deviation 1/10000 fails the 0.001
guard, so the code divides by 1 rather than by any floored deviation:
the z-score of 1 is 1 - 1/10000. -/
lemma z_score_tiny : calculate_z_score 1 [0, (1 : ℝ) / 5000] = 9999 / 10000 := by
  unfold calculate_z_score
  rw [if_neg (by norm_num), histStd_tiny, histMean_tiny,
    if_neg (by norm_num : ¬ ((1 : ℝ) / 10000 > 0.001))]
  norm_num

/-- Counterexample to claim C2: no single floor ε in [0.001, 1] makes
the z-score equal `(value - mean) / max(std, ε)`.  The history [0, 1]
(std 1/2, z-score of 1 equal to 1) forces ε ≤ 1/2, while the history
[0, 1/5000] (std 1/10000, where the code divides by 1 and returns
1 - 1/10000) forces ε = 1. -/
theorem z_score_no_single_epsilon_floor :
    ¬ ∃ ε : ℝ, 0.001 ≤ ε ∧ ε ≤ 1 ∧
      ∀ (value : ℝ) (history : List ℝ), 2 ≤ history.length →
        calculate_z_score value history =
          (value - histMean history) / max (histStd history) ε := by
  rintro ⟨ε, hlo, hhi, hall⟩
  have h1 := hall 1 [0, 1] (by norm_num)
  have h2 := hall 1 [0, 1 / 5000] (by norm_num)
  rw [z_score_01, histMean_01, histStd_01] at h1
  rw [z_score_tiny, histMean_tiny, histStd_tiny] at h2
  have hmaxpos : (0 : ℝ) < max (1 / 2) ε := lt_max_of_lt_left (by norm_num)
  rw [eq_div_iff (ne_of_gt hmaxpos)] at h1
  have hm : max (1 / 2 : ℝ) ε = 1 / 2 := by linarith
  have hup : ε ≤ 1 / 2 := hm ▸ le_max_right (1 / 2) ε
  have hm2 : max (1 / 10000 : ℝ) ε = ε := max_eq_right (by linarith)
  rw [hm2] at h2
  have hne : ε ≠ 0 := ne_of_gt (lt_of_lt_of_le (by norm_num) hlo)
  rw [eq_div_iff hne] at h2
  have hone : ε = 1 := by linarith
  linarith

/-- Claim C2 as amended: the z-score is 0 on a history of fewer than 2
observations; otherwise it is `(value - mean) / d` where `d` is the
population standard deviation when that deviation exceeds 0.001 and is
the constant 1 otherwise (the guard substitutes the divisor 1, it does
not floor the deviation); and the z-score of the mean of any history
is 0. -/
theorem z_score_characterization :
    (∀ (value : ℝ) (history : List ℝ), history.length < 2 →
      calculate_z_score value history = 0)
    ∧ (∀ (value : ℝ) (history : List ℝ), 2 ≤ history.length →
      calculate_z_score value history =
        (value - histMean history) /
          (if histStd history > 0.001 then histStd history else 1))
    ∧ (∀ history : List ℝ, calculate_z_score (histMean history) history = 0) := by
  refine ⟨fun value history hlen => calculate_z_score_short value history hlen,
    fun value history hlen => ?_, fun history => ?_⟩
  · unfold calculate_z_score
    rw [if_neg (not_lt.mpr hlen)]
  · unfold calculate_z_score
    split
    · rfl
    · rw [sub_self, zero_div]

/-- The hypotheses of `z_score_characterization` discharged concretely:
the singleton history [3] is below the minimum size, and [0, 1] is at
it. -/
theorem z_score_characterization_witness :
    calculate_z_score 5 [3] = 0
    ∧ calculate_z_score 1 [0, 1] =
        (1 - histMean [0, 1]) /
          (if histStd [0, 1] > 0.001 then histStd [0, 1] else 1) :=
  ⟨z_score_characterization.1 5 [3] (by norm_num),
   z_score_characterization.2.1 1 [0, 1] (by norm_num)⟩

end ScienceFair
